import Mathlib

/-!
Shallow embedding of the Vulkan bootstrap program in
`src/VulkanLearning/main.cpp` (class `HelloTriangleApp`), together with
theorems settling the specification claims about it.

Driver-owned state that the program only reads (queue family properties,
surface capabilities, supported extension lists, ...) is modelled as record
fields of the corresponding snapshot structures; the C++ query functions
(`vkGetPhysicalDevice...`) become plain field reads.  Machine integers
(`uint32_t`, `int`) are modelled as `Nat`/`Int`; the only arithmetic the
embedded code performs stays far below the 32-bit range except for the
swapchain image count, where the 32-bit wrap is made explicit.
-/

namespace VulkanLearning

/-- Sentinel value `UINT32_MAX`, used by `chooseSwapExtent` to detect an
undefined current extent (main.cpp:1262). -/
def UINT32_MAX : Nat := 4294967295

/-- Window width requested by the application (main.cpp:602). -/
def WIDTH : Nat := 800

/-- Window height requested by the application (main.cpp:603). -/
def HEIGHT : Nat := 600

/-- Queue-capability flag bits (VkQueueFlagBits). -/
def VK_QUEUE_GRAPHICS_BIT : Nat := 1

def VK_QUEUE_COMPUTE_BIT : Nat := 2

def VK_QUEUE_TRANSFER_BIT : Nat := 4

def VK_QUEUE_SPARSE_BINDING_BIT : Nat := 8

/-- Device-type enumerants (VkPhysicalDeviceType).  These are plain enum
values, not flag bits. -/
def VK_PHYSICAL_DEVICE_TYPE_OTHER : Nat := 0

def VK_PHYSICAL_DEVICE_TYPE_INTEGRATED_GPU : Nat := 1

def VK_PHYSICAL_DEVICE_TYPE_DISCRETE_GPU : Nat := 2

def VK_PHYSICAL_DEVICE_TYPE_VIRTUAL_GPU : Nat := 3

def VK_PHYSICAL_DEVICE_TYPE_CPU : Nat := 4

/-- Surface format enumerant used by `chooseSwapSurfaceFormat`
(main.cpp:1238). -/
def VK_FORMAT_B8G8R8_UNORM : Nat := 30

/-- Color-space enumerant used by `chooseSwapSurfaceFormat`
(main.cpp:1238). -/
def VK_COLOR_SPACE_SRGB_NONLINEAR_KHR : Nat := 0

/-- Name of the swapchain device extension (main.cpp:636-638). -/
def VK_KHR_SWAPCHAIN_EXTENSION_NAME : String := "VK_KHR_swapchain"

/-- VkExtensionProperties: only the name field is read by the program
(main.cpp:839). -/
structure ExtensionProperties where
  extensionName : String
deriving DecidableEq

/-- VkSurfaceFormatKHR (format, colorSpace). -/
structure SurfaceFormatKHR where
  format : Nat
  colorSpace : Nat
deriving DecidableEq

/-- VkExtent2D. -/
structure Extent2D where
  width : Nat
  height : Nat
deriving DecidableEq

/-- The subset of VkSurfaceCapabilitiesKHR fields the program reads
(main.cpp:1180-1189 and main.cpp:1260-1273). -/
structure SurfaceCapabilitiesKHR where
  minImageCount : Nat
  maxImageCount : Nat
  currentExtent : Extent2D
  minImageExtent : Extent2D
  maxImageExtent : Extent2D
deriving DecidableEq

/-- A physical-device candidate together with the driver-owned data the
program queries about it: `deviceType` from vkGetPhysicalDeviceProperties,
the queue-family flag sets from vkGetPhysicalDeviceQueueFamilyProperties,
per-family presentation support from vkGetPhysicalDeviceSurfaceSupportKHR,
the supported device extensions from vkEnumerateDeviceExtensionProperties,
and the surface formats / present modes from the surface queries
(main.cpp:946-1094). -/
structure PhysicalDevice where
  deviceType : Nat
  queueFamilyFlags : List Nat
  presentSupport : List Bool
  supportedExtensions : List ExtensionProperties
  surfaceFormats : List SurfaceFormatKHR
  presentModes : List Nat
deriving DecidableEq

/-- QueueFamilyIndices (main.cpp:627-634). -/
structure QueueFamilyIndices where
  graphicsFamily : Option Nat
  computeFamily : Option Nat
  transferFamily : Option Nat
  sparseBindingFamily : Option Nat
  presentFamily : Option Nat
deriving DecidableEq

/-- Required device extensions (main.cpp:636-638). -/
def deviceExtensions : List String := [VK_KHR_SWAPCHAIN_EXTENSION_NAME]

/-- HelloTriangleApp::cstrEquals (main.cpp:859-862): `strcmp(str1, str2) == 0`
is exact, case-sensitive string equality. -/
def cstrEquals (str1 str2 : String) : Bool :=
  str1 = str2

/-- HelloTriangleApp::extensionNamePresentInExtensionVector
(main.cpp:835-845): linear scan comparing each supported extension's name
against the requested name. -/
def extensionNamePresentInExtensionVector
    (extensionName : String) : List ExtensionProperties → Bool
  | [] => false
  | supportedExtension :: rest =>
    if cstrEquals supportedExtension.extensionName extensionName then
      true
    else
      extensionNamePresentInExtensionVector extensionName rest

/-- HelloTriangleApp::checkExtensionSupport (main.cpp:822-833): returns
false as soon as one requested extension is missing, true otherwise. -/
def checkExtensionSupport
    (extensions : List String)
    (availableExtensions : List ExtensionProperties) : Bool :=
  match extensions with
  | [] => true
  | extensionName :: rest =>
    if !extensionNamePresentInExtensionVector extensionName availableExtensions then
      false
    else
      checkExtensionSupport rest availableExtensions

/-- Loop body of HelloTriangleApp::findQueueFamilyWithCapability
(main.cpp:1062-1079): `i` is the current loop index and `index` the
`std::optional<uint32_t>` accumulator.  Whenever the family's flag set
contains the capability the accumulator is overwritten; when the flag set
equals the capability exactly (`flags ^ capability == 0`) the function
returns immediately. -/
def findQueueFamilyLoop (capability : Nat) :
    List Nat → Nat → Option Nat → Option Nat
  | [], _, index => index
  | queueFlags :: rest, i, index =>
    if queueFlags &&& capability ≠ 0 then
      if queueFlags ^^^ capability = 0 then
        some i
      else
        findQueueFamilyLoop capability rest (i + 1) (some i)
    else
      findQueueFamilyLoop capability rest (i + 1) index

/-- HelloTriangleApp::findQueueFamilyWithCapability (main.cpp:1062-1079). -/
def findQueueFamilyWithCapability
    (queueFamilies : List Nat) (capability : Nat) : Option Nat :=
  findQueueFamilyLoop capability queueFamilies 0 none

/-- Loop of HelloTriangleApp::findPresentationQueueFamily
(main.cpp:1081-1094): iterates over the queue-family indices and returns
the first index for which the surface-support query reports true. -/
def findPresentationLoop (dev : PhysicalDevice) :
    List Nat → Nat → Option Nat
  | [], _ => none
  | _ :: rest, i =>
    if dev.presentSupport.getD i false then
      some i
    else
      findPresentationLoop dev rest (i + 1)

/-- HelloTriangleApp::findPresentationQueueFamily (main.cpp:1081-1094). -/
def findPresentationQueueFamily (dev : PhysicalDevice) : Option Nat :=
  findPresentationLoop dev dev.queueFamilyFlags 0

/-- HelloTriangleApp::findQueueFamilies (main.cpp:1045-1060). -/
def findQueueFamilies (dev : PhysicalDevice) : QueueFamilyIndices :=
  { graphicsFamily :=
      findQueueFamilyWithCapability dev.queueFamilyFlags VK_QUEUE_GRAPHICS_BIT
    computeFamily :=
      findQueueFamilyWithCapability dev.queueFamilyFlags VK_QUEUE_COMPUTE_BIT
    transferFamily :=
      findQueueFamilyWithCapability dev.queueFamilyFlags VK_QUEUE_TRANSFER_BIT
    sparseBindingFamily :=
      findQueueFamilyWithCapability dev.queueFamilyFlags VK_QUEUE_SPARSE_BINDING_BIT
    presentFamily := findPresentationQueueFamily dev }

/-- HelloTriangleApp::isDeviceSuitable (main.cpp:973-989): requires a
graphics queue family, a presentation queue family, all required device
extensions, and a non-empty format list and present-mode list. -/
def isDeviceSuitable (dev : PhysicalDevice) : Bool :=
  let extensionsSupported :=
    checkExtensionSupport deviceExtensions dev.supportedExtensions
  let swapChainAdequate :=
    if extensionsSupported then
      !(dev.surfaceFormats.isEmpty || dev.presentModes.isEmpty)
    else
      false
  let queueFamilies := findQueueFamilies dev
  queueFamilies.graphicsFamily.isSome
    && queueFamilies.presentFamily.isSome
    && extensionsSupported
    && swapChainAdequate

/-- DEVICE_NON_SUITABLE_SCORE (main.cpp:923). -/
def DEVICE_NON_SUITABLE_SCORE : Int := 0

/-- HelloTriangleApp::calculatePhysicalDeviceScore (main.cpp:946-971):
zero for a non-suitable device; otherwise the score is incremented to 1
and the test `device_properties.deviceType & VK_PHYSICAL_DEVICE_TYPE_DISCRETE_GPU`
(a bitwise AND between the enum value of the device type and the enum
value 2) adds 1000 when it is non-zero. -/
def calculatePhysicalDeviceScore (dev : PhysicalDevice) : Int :=
  let score := DEVICE_NON_SUITABLE_SCORE
  if !isDeviceSuitable dev then
    score
  else
    let score := score + 1
    let score :=
      if dev.deviceType &&& VK_PHYSICAL_DEVICE_TYPE_DISCRETE_GPU ≠ 0 then
        score + 1000
      else
        score
    score

/-- Loop of HelloTriangleApp::pickPhysicalDeviceWithHighestScore
(main.cpp:926-936): `i` is the current index, `hs` the running
`highest_score` and `bi` the running `best_device_idx`; both are updated
only when the candidate's score strictly exceeds the running maximum. -/
def pickLoop (score : PhysicalDevice → Int) :
    List PhysicalDevice → Nat → Int → Nat → Int × Nat
  | [], _, hs, bi => (hs, bi)
  | dev :: rest, i, hs, bi =>
    if score dev > hs then
      pickLoop score rest (i + 1) (score dev) i
    else
      pickLoop score rest (i + 1) hs bi

/-- HelloTriangleApp::pickPhysicalDeviceWithHighestScore
(main.cpp:924-944): runs the scoring loop from `highest_score = 0`,
`best_device_idx = 0`; throws "no suitable gpu found" when the highest
score stayed at DEVICE_NON_SUITABLE_SCORE, and otherwise returns
`physicalDevices[best_device_idx]`.  The out-of-range branch of the final
lookup is unreachable and modelled by a distinct internal error. -/
def pickPhysicalDeviceWithHighestScore
    (physicalDevices : List PhysicalDevice) : Except String PhysicalDevice :=
  let r := pickLoop calculatePhysicalDeviceScore physicalDevices 0 DEVICE_NON_SUITABLE_SCORE 0
  if r.1 = DEVICE_NON_SUITABLE_SCORE then
    Except.error "no suitable gpu found"
  else
    match physicalDevices[r.2]? with
    | some dev => Except.ok dev
    | none => Except.error "index out of range"

/-- HelloTriangleApp::findPhysicalDevices (main.cpp:907-921): throws
"failed to find gpu supporting vulkan" when the enumeration reports zero
devices, and otherwise returns the enumerated list. -/
def findPhysicalDevices
    (available : List PhysicalDevice) : Except String (List PhysicalDevice) :=
  if available.length = 0 then
    Except.error "failed to find gpu supporting vulkan"
  else
    Except.ok available

/-- Loop of HelloTriangleApp::chooseSwapSurfaceFormat (main.cpp:1236-1242):
returns the first format equal to (VK_FORMAT_B8G8R8_UNORM,
VK_COLOR_SPACE_SRGB_NONLINEAR_KHR). -/
def chooseSwapSurfaceFormatLoop :
    List SurfaceFormatKHR → Option SurfaceFormatKHR
  | [] => none
  | format :: rest =>
    if format.format = VK_FORMAT_B8G8R8_UNORM
        ∧ format.colorSpace = VK_COLOR_SPACE_SRGB_NONLINEAR_KHR then
      some format
    else
      chooseSwapSurfaceFormatLoop rest

/-- HelloTriangleApp::chooseSwapSurfaceFormat (main.cpp:1234-1245): the
preferred pair when present, and `availableFormats[0]` otherwise.  Indexing
an empty vector is undefined behaviour in the source and is modelled by
`none`. -/
def chooseSwapSurfaceFormat
    (availableFormats : List SurfaceFormatKHR) : Option SurfaceFormatKHR :=
  match chooseSwapSurfaceFormatLoop availableFormats with
  | some format => some format
  | none => availableFormats.head?

/-- std::clamp(v, lo, hi): `v < lo ? lo : (hi < v ? hi : v)`. -/
def stdClamp (v lo hi : Nat) : Nat :=
  if v < lo then lo else if hi < v then hi else v

/-- HelloTriangleApp::chooseSwapExtent (main.cpp:1260-1273): when the
surface reports the UINT32_MAX sentinel width the requested WIDTH x HEIGHT
is clamped into the [min,max] image extents; otherwise the current extent
is returned unchanged. -/
def chooseSwapExtent (capabilities : SurfaceCapabilitiesKHR) : Extent2D :=
  if capabilities.currentExtent.width = UINT32_MAX then
    { width :=
        stdClamp WIDTH capabilities.minImageExtent.width
          capabilities.maxImageExtent.width
      height :=
        stdClamp HEIGHT capabilities.minImageExtent.height
          capabilities.maxImageExtent.height }
  else
    capabilities.currentExtent

/-- Image-count computation of HelloTriangleApp::createSwapChain
(main.cpp:1180-1187): `imageCount = minImageCount + 1` in uint32
arithmetic, then clamped down to `maxImageCount` when that maximum is
non-zero. -/
def createSwapChainImageCount (capabilities : SurfaceCapabilitiesKHR) : Nat :=
  let imageCount := (capabilities.minImageCount + 1) % 2 ^ 32
  if capabilities.maxImageCount ≠ 0 then
    if imageCount > capabilities.maxImageCount then
      capabilities.maxImageCount
    else
      imageCount
  else
    imageCount

/-- Driver-owned resources created by a successful full bootstrap
(HelloTriangleApp::run: initWindow then initVulkan, main.cpp:669-706) and
destroyed by HelloTriangleApp::cleanup (main.cpp:1508-1539). -/
inductive Resource
  | window
  | vkInstance
  | debugMessenger
  | surface
  | device
  | swapchain
  | imageViews
  | renderPass
  | pipelineLayout
  | pipeline
  | framebuffers
deriving DecidableEq, Fintype

/-- First index of an element in a list (0 and past-the-end collapse is
irrelevant here: the order lists below contain every resource exactly
once). -/
def firstIndexOf {α : Type} [DecidableEq α] : List α → α → Nat
  | [], _ => 0
  | b :: rest, a => if a = b then 0 else firstIndexOf rest a + 1

/-- Order in which the bootstrap creates the driver-owned resources, read
off HelloTriangleApp::run and initVulkan (main.cpp:669-706, validation
layers enabled): glfwCreateWindow, createInstance, setupDebugMessenger,
createSurface, createLogicalDevice, createSwapChain,
createSwapChainImageViews, createRenderPass, createPipelineLayout (called
from createGraphicsPipeline just before the pipeline), the pipeline
itself, createFramebuffers. -/
def constructionOrder : List Resource :=
  [Resource.window, Resource.vkInstance, Resource.debugMessenger,
   Resource.surface, Resource.device, Resource.swapchain,
   Resource.imageViews, Resource.renderPass, Resource.pipelineLayout,
   Resource.pipeline, Resource.framebuffers]

/-- Order in which HelloTriangleApp::cleanup destroys them
(main.cpp:1508-1539, validation layers enabled): framebuffers, pipeline,
pipeline layout, render pass, image views, swapchain, device, debug
messenger, surface, instance, window. -/
def destructionOrder : List Resource :=
  [Resource.framebuffers, Resource.pipeline, Resource.pipelineLayout,
   Resource.renderPass, Resource.imageViews, Resource.swapchain,
   Resource.device, Resource.debugMessenger, Resource.surface,
   Resource.vkInstance, Resource.window]

/-- Events of HelloTriangleApp::createGraphicsPipeline
(main.cpp:1344-1438) that create, use or destroy driver objects relevant
to the shader-module lifetime. -/
inductive PipelineEvent
  | createVertexShaderModule
  | createFragmentShaderModule
  | createLayout
  | callCreateGraphicsPipelines
  | destroyVertexShaderModule
  | destroyFragmentShaderModule
deriving DecidableEq

/-- Event trace and outcome of HelloTriangleApp::createGraphicsPipeline
(main.cpp:1344-1438), parametrised by the outcome of its four fallible
steps: acquiring the vertex shader module (readFile + createShaderModule,
line 1346), acquiring the fragment shader module (line 1347),
createPipelineLayout (line 1408), and vkCreateGraphicsPipelines (line
1428).  A failing step throws, which ends the trace; on a pipeline-creation
failure the source destroys both shader modules before throwing
(lines 1430-1433), and on success it destroys them after the call
(lines 1436-1437). -/
def createGraphicsPipelineTrace
    (vertexShaderOk fragmentShaderOk layoutOk pipelineCreateOk : Bool) :
    List PipelineEvent × Except String Unit :=
  if vertexShaderOk = false then
    ([], Except.error "failed to create shader module")
  else if fragmentShaderOk = false then
    ([PipelineEvent.createVertexShaderModule],
     Except.error "failed to create shader module")
  else if layoutOk = false then
    ([PipelineEvent.createVertexShaderModule,
      PipelineEvent.createFragmentShaderModule],
     Except.error "failed to create pipeline layout")
  else if pipelineCreateOk = false then
    ([PipelineEvent.createVertexShaderModule,
      PipelineEvent.createFragmentShaderModule,
      PipelineEvent.createLayout,
      PipelineEvent.callCreateGraphicsPipelines,
      PipelineEvent.destroyVertexShaderModule,
      PipelineEvent.destroyFragmentShaderModule],
     Except.error "failed to create graphics pipeline")
  else
    ([PipelineEvent.createVertexShaderModule,
      PipelineEvent.createFragmentShaderModule,
      PipelineEvent.createLayout,
      PipelineEvent.callCreateGraphicsPipelines,
      PipelineEvent.destroyVertexShaderModule,
      PipelineEvent.destroyFragmentShaderModule],
     Except.ok ())

/-- The surface-format pair preferred by chooseSwapSurfaceFormat
(main.cpp:1238). -/
def preferredSurfaceFormat : SurfaceFormatKHR :=
  { format := VK_FORMAT_B8G8R8_UNORM
    colorSpace := VK_COLOR_SPACE_SRGB_NONLINEAR_KHR }

/-- A device candidate of the given type that passes every suitability
condition: one graphics-capable queue family that also supports
presentation, the swapchain extension, one surface format and one present
mode. -/
def suitableDevice (ty : Nat) : PhysicalDevice :=
  { deviceType := ty
    queueFamilyFlags := [VK_QUEUE_GRAPHICS_BIT]
    presentSupport := [true]
    supportedExtensions := [{ extensionName := VK_KHR_SWAPCHAIN_EXTENSION_NAME }]
    surfaceFormats := [preferredSurfaceFormat]
    presentModes := [2] }

/-- A discrete device candidate that fails the suitability gate: it does
not support the swapchain extension. -/
def unsuitableDevice : PhysicalDevice :=
  { deviceType := VK_PHYSICAL_DEVICE_TYPE_DISCRETE_GPU
    queueFamilyFlags := [VK_QUEUE_GRAPHICS_BIT]
    presentSupport := [true]
    supportedExtensions := []
    surfaceFormats := [preferredSurfaceFormat]
    presentModes := [2] }

/-- A capabilities report with the sentinel (undefined) current extent and
an extent range containing the requested 800x600 size. -/
def sentinelCapabilities : SurfaceCapabilitiesKHR :=
  { minImageCount := 2
    maxImageCount := 0
    currentExtent := { width := UINT32_MAX, height := 600 }
    minImageExtent := { width := 100, height := 100 }
    maxImageExtent := { width := 2000, height := 2000 } }

/-- A capabilities report with a defined current extent. -/
def definedCapabilities : SurfaceCapabilitiesKHR :=
  { minImageCount := 2
    maxImageCount := 2
    currentExtent := { width := 1024, height := 768 }
    minImageExtent := { width := 100, height := 100 }
    maxImageExtent := { width := 2000, height := 2000 } }

/-! ## Claim C1: teardown order versus construction order -/

/-- Claim C1, counterexample: the construction sequence creates the debug
messenger before the surface, yet cleanup destroys the debug messenger
before the surface as well, so the teardown sequence is not the exact
reverse of the construction sequence. -/
theorem cleanup_not_exact_reverse :
    firstIndexOf constructionOrder Resource.debugMessenger <
      firstIndexOf constructionOrder Resource.surface
    ∧ ¬ firstIndexOf destructionOrder Resource.surface <
        firstIndexOf destructionOrder Resource.debugMessenger
    ∧ destructionOrder ≠ constructionOrder.reverse := by
  decide

/-- Claim C1, amended: for every pair of resources A created before B,
except the pair (debug messenger, surface), B is destroyed before A; the
debug messenger is created before the surface but also destroyed before
it. -/
theorem cleanup_reverse_except_debug_messenger :
    ∀ a b : Resource,
      firstIndexOf constructionOrder a < firstIndexOf constructionOrder b →
      ¬(a = Resource.debugMessenger ∧ b = Resource.surface) →
      firstIndexOf destructionOrder b < firstIndexOf destructionOrder a := by
  decide

/-- Claim C1, witness: the instance is created before the surface, hence
the surface is destroyed before the instance. -/
theorem cleanup_reverse_except_debug_messenger_witness :
    (firstIndexOf constructionOrder Resource.vkInstance <
        firstIndexOf constructionOrder Resource.surface
      ∧ ¬(Resource.vkInstance = Resource.debugMessenger
          ∧ Resource.surface = Resource.surface))
    ∧ firstIndexOf destructionOrder Resource.surface <
        firstIndexOf destructionOrder Resource.vkInstance :=
  ⟨⟨by decide, by decide⟩,
   cleanup_reverse_except_debug_messenger Resource.vkInstance Resource.surface
     (by decide) (by decide)⟩

/-! ## Claim C2: physical-device score -/

/-- Claim C2: the score is 0 for a non-suitable candidate and 1001 for a
suitable discrete one, and suitable integrated, CPU and other candidates
score 1 — but a suitable VIRTUAL_GPU candidate also scores 1001, because
the source tests `deviceType & VK_PHYSICAL_DEVICE_TYPE_DISCRETE_GPU`
(main.cpp:965), a bitwise AND with the enum value 2, and 3 & 2 ≠ 0.  The
claim says every suitable non-discrete candidate scores 1, so the virtual
case exhibits the divergence. -/
theorem calculatePhysicalDeviceScore_cases :
    calculatePhysicalDeviceScore
        (suitableDevice VK_PHYSICAL_DEVICE_TYPE_DISCRETE_GPU) = 1001
    ∧ calculatePhysicalDeviceScore
        (suitableDevice VK_PHYSICAL_DEVICE_TYPE_INTEGRATED_GPU) = 1
    ∧ calculatePhysicalDeviceScore
        (suitableDevice VK_PHYSICAL_DEVICE_TYPE_CPU) = 1
    ∧ calculatePhysicalDeviceScore
        (suitableDevice VK_PHYSICAL_DEVICE_TYPE_OTHER) = 1
    ∧ isDeviceSuitable (suitableDevice VK_PHYSICAL_DEVICE_TYPE_VIRTUAL_GPU) = true
    ∧ VK_PHYSICAL_DEVICE_TYPE_VIRTUAL_GPU ≠ VK_PHYSICAL_DEVICE_TYPE_DISCRETE_GPU
    ∧ calculatePhysicalDeviceScore
        (suitableDevice VK_PHYSICAL_DEVICE_TYPE_VIRTUAL_GPU) = 1001
    ∧ calculatePhysicalDeviceScore unsuitableDevice = 0 := by
  decide

/-! ## Claim C9: shader-module lifetime in createGraphicsPipeline -/

/-- Claim C9: once both shader modules and the pipeline layout have been
created, both the success and the failure outcome of the
pipeline-creation call destroy the vertex and the fragment shader module,
strictly after that call, so neither module outlives the function
regardless of whether pipeline creation succeeds. -/
theorem createGraphicsPipeline_shader_module_teardown :
    ∀ pipelineCreateOk : Bool,
      PipelineEvent.callCreateGraphicsPipelines ∈
        (createGraphicsPipelineTrace true true true pipelineCreateOk).1
      ∧ PipelineEvent.destroyVertexShaderModule ∈
          (createGraphicsPipelineTrace true true true pipelineCreateOk).1
      ∧ PipelineEvent.destroyFragmentShaderModule ∈
          (createGraphicsPipelineTrace true true true pipelineCreateOk).1
      ∧ firstIndexOf (createGraphicsPipelineTrace true true true pipelineCreateOk).1
            PipelineEvent.callCreateGraphicsPipelines <
          firstIndexOf (createGraphicsPipelineTrace true true true pipelineCreateOk).1
            PipelineEvent.destroyVertexShaderModule
      ∧ firstIndexOf (createGraphicsPipelineTrace true true true pipelineCreateOk).1
            PipelineEvent.callCreateGraphicsPipelines <
          firstIndexOf (createGraphicsPipelineTrace true true true pipelineCreateOk).1
            PipelineEvent.destroyFragmentShaderModule := by
  intro pipelineCreateOk
  cases pipelineCreateOk <;> decide

/-! ## Claim C5: extension/layer support check -/

/-- The membership scan finds a name exactly when some supported extension
carries that name. -/
theorem extensionNamePresent_iff (extensionName : String)
    (supportedExtensions : List ExtensionProperties) :
    extensionNamePresentInExtensionVector extensionName supportedExtensions = true ↔
      ∃ e ∈ supportedExtensions, e.extensionName = extensionName := by
  induction supportedExtensions with
  | nil => simp [extensionNamePresentInExtensionVector]
  | cons e rest ih =>
    by_cases h : e.extensionName = extensionName
    · simp [extensionNamePresentInExtensionVector, cstrEquals, h]
    · simp [extensionNamePresentInExtensionVector, cstrEquals, h, ih]

/-- Claim C5: checkExtensionSupport returns true iff every required name
appears (by exact, case-sensitive string equality) among the supported
extensions, and returns false whenever any single required name is
absent. -/
theorem checkExtensionSupport_spec :
    ∀ (extensions : List String)
      (availableExtensions : List ExtensionProperties),
      (checkExtensionSupport extensions availableExtensions = true ↔
        ∀ name ∈ extensions, ∃ e ∈ availableExtensions, e.extensionName = name)
      ∧ ((∃ name ∈ extensions, ∀ e ∈ availableExtensions, e.extensionName ≠ name) →
          checkExtensionSupport extensions availableExtensions = false) := by
  intro extensions availableExtensions
  have main : checkExtensionSupport extensions availableExtensions = true ↔
      ∀ name ∈ extensions, ∃ e ∈ availableExtensions, e.extensionName = name := by
    induction extensions with
    | nil => simp [checkExtensionSupport]
    | cons name rest ih =>
      by_cases h :
          extensionNamePresentInExtensionVector name availableExtensions = true
      · simp [checkExtensionSupport, h, ih,
          (extensionNamePresent_iff name availableExtensions).mp h]
      · simp only [Bool.not_eq_true] at h
        have hfalse :
            checkExtensionSupport (name :: rest) availableExtensions = false := by
          simp [checkExtensionSupport, h]
        rw [hfalse]
        simp only [Bool.false_eq_true, false_iff]
        intro hall
        exact absurd ((extensionNamePresent_iff name availableExtensions).mpr
          (hall name (List.mem_cons_self name rest))) (by simp [h])
  refine ⟨main, fun hmissing => ?_⟩
  obtain ⟨name, hmem, habs⟩ := hmissing
  cases hco : checkExtensionSupport extensions availableExtensions with
  | false => rfl
  | true =>
    obtain ⟨e, he, hname⟩ := main.mp hco name hmem
    exact absurd hname (habs e he)

/-- Claim C5, witness: a required name absent from the supported set makes
the check fail, and the check succeeds when every required name is
present. -/
theorem checkExtensionSupport_spec_witness :
    checkExtensionSupport [VK_KHR_SWAPCHAIN_EXTENSION_NAME] [] = false
    ∧ checkExtensionSupport [VK_KHR_SWAPCHAIN_EXTENSION_NAME]
        [{ extensionName := VK_KHR_SWAPCHAIN_EXTENSION_NAME }] = true :=
  ⟨(checkExtensionSupport_spec [VK_KHR_SWAPCHAIN_EXTENSION_NAME] []).2
     ⟨VK_KHR_SWAPCHAIN_EXTENSION_NAME, by decide, by simp⟩,
   (checkExtensionSupport_spec [VK_KHR_SWAPCHAIN_EXTENSION_NAME]
       [{ extensionName := VK_KHR_SWAPCHAIN_EXTENSION_NAME }]).1.mpr
     (by simp)⟩

/-! ## Claim C6: swap extent choice -/

/-- std::clamp agrees with min/max composition when the range is
well-formed. -/
theorem stdClamp_eq_min_max (v lo hi : Nat) (h : lo ≤ hi) :
    stdClamp v lo hi = min hi (max lo v) := by
  unfold stdClamp
  split_ifs with h1 h2
  · rw [max_eq_left (Nat.le_of_lt h1), min_eq_right h]
  · rw [max_eq_right (Nat.le_of_not_lt h1), min_eq_left (Nat.le_of_lt h2)]
  · rw [max_eq_right (Nat.le_of_not_lt h1), min_eq_right (Nat.le_of_not_lt h2)]

/-- Claim C6: with the sentinel (undefined) current-extent width, the
requested 800x600 size is clamped into the [min,max] extent range; with a
defined current extent, that extent is returned unchanged. -/
theorem chooseSwapExtent_spec :
    ∀ capabilities : SurfaceCapabilitiesKHR,
      (capabilities.currentExtent.width = UINT32_MAX →
        capabilities.minImageExtent.width ≤ capabilities.maxImageExtent.width →
        capabilities.minImageExtent.height ≤ capabilities.maxImageExtent.height →
        chooseSwapExtent capabilities =
          { width := min capabilities.maxImageExtent.width
              (max capabilities.minImageExtent.width WIDTH)
            height := min capabilities.maxImageExtent.height
              (max capabilities.minImageExtent.height HEIGHT) })
      ∧ (capabilities.currentExtent.width ≠ UINT32_MAX →
          chooseSwapExtent capabilities = capabilities.currentExtent) := by
  intro capabilities
  refine ⟨fun hs hw hh => ?_, fun hs => ?_⟩
  · unfold chooseSwapExtent
    rw [if_pos hs, stdClamp_eq_min_max WIDTH _ _ hw,
      stdClamp_eq_min_max HEIGHT _ _ hh]
  · unfold chooseSwapExtent
    rw [if_neg hs]

/-- Claim C6, witness: the sentinel report yields exactly 800x600 (the
requested size lies inside the range), and the defined report is returned
unchanged. -/
theorem chooseSwapExtent_spec_witness :
    (sentinelCapabilities.currentExtent.width = UINT32_MAX
      ∧ chooseSwapExtent sentinelCapabilities =
          { width := min sentinelCapabilities.maxImageExtent.width
              (max sentinelCapabilities.minImageExtent.width WIDTH)
            height := min sentinelCapabilities.maxImageExtent.height
              (max sentinelCapabilities.minImageExtent.height HEIGHT) })
    ∧ (definedCapabilities.currentExtent.width ≠ UINT32_MAX
      ∧ chooseSwapExtent definedCapabilities = definedCapabilities.currentExtent) :=
  ⟨⟨by decide,
    (chooseSwapExtent_spec sentinelCapabilities).1 (by decide) (by decide) (by decide)⟩,
   ⟨by decide, (chooseSwapExtent_spec definedCapabilities).2 (by decide)⟩⟩

/-! ## Claim C7: swap surface format choice -/

/-- The format loop returns the preferred pair whenever it occurs in the
list. -/
theorem chooseSwapSurfaceFormatLoop_mem
    (availableFormats : List SurfaceFormatKHR)
    (h : preferredSurfaceFormat ∈ availableFormats) :
    chooseSwapSurfaceFormatLoop availableFormats = some preferredSurfaceFormat := by
  induction availableFormats with
  | nil => cases h
  | cons format rest ih =>
    by_cases hf : format.format = VK_FORMAT_B8G8R8_UNORM
        ∧ format.colorSpace = VK_COLOR_SPACE_SRGB_NONLINEAR_KHR
    · have hform : format = preferredSurfaceFormat := by
        cases format
        simp only [preferredSurfaceFormat]
        simp_all
      have hred : chooseSwapSurfaceFormatLoop (format :: rest) = some format := by
        simp [chooseSwapSurfaceFormatLoop, hf]
      rw [hred, hform]
    · have : preferredSurfaceFormat ≠ format := by
        intro he
        exact hf (by simp [← he, preferredSurfaceFormat])
      rcases List.mem_cons.mp h with he | hm
      · exact absurd he this
      · simp [chooseSwapSurfaceFormatLoop, hf, ih hm]

/-- The format loop finds nothing when the preferred pair is absent. -/
theorem chooseSwapSurfaceFormatLoop_not_mem
    (availableFormats : List SurfaceFormatKHR)
    (h : preferredSurfaceFormat ∉ availableFormats) :
    chooseSwapSurfaceFormatLoop availableFormats = none := by
  induction availableFormats with
  | nil => rfl
  | cons format rest ih =>
    by_cases hf : format.format = VK_FORMAT_B8G8R8_UNORM
        ∧ format.colorSpace = VK_COLOR_SPACE_SRGB_NONLINEAR_KHR
    · exfalso
      apply h
      have : format = preferredSurfaceFormat := by
        cases format
        simp only [preferredSurfaceFormat]
        simp_all
      rw [← this]
      exact List.mem_cons_self format rest
    · have : preferredSurfaceFormat ∉ rest := fun hm =>
        h (List.mem_cons_of_mem format hm)
      simp [chooseSwapSurfaceFormatLoop, hf, ih this]

/-- Claim C7: chooseSwapSurfaceFormat returns the preferred
(BGR8, sRGB-nonlinear) pair whenever it occurs anywhere in the list, and
falls back to the first list entry when the preferred pair is absent. -/
theorem chooseSwapSurfaceFormat_spec :
    ∀ availableFormats : List SurfaceFormatKHR,
      (preferredSurfaceFormat ∈ availableFormats →
        chooseSwapSurfaceFormat availableFormats = some preferredSurfaceFormat)
      ∧ (preferredSurfaceFormat ∉ availableFormats →
        chooseSwapSurfaceFormat availableFormats = availableFormats.head?) := by
  intro availableFormats
  constructor
  · intro h
    unfold chooseSwapSurfaceFormat
    rw [chooseSwapSurfaceFormatLoop_mem availableFormats h]
  · intro h
    unfold chooseSwapSurfaceFormat
    rw [chooseSwapSurfaceFormatLoop_not_mem availableFormats h]

/-- Claim C7, witness: the preferred pair is returned although it is
second in the list, and a list without it falls back to its first
entry. -/
theorem chooseSwapSurfaceFormat_spec_witness :
    chooseSwapSurfaceFormat [{ format := 44, colorSpace := 0 }, preferredSurfaceFormat] =
        some preferredSurfaceFormat
    ∧ chooseSwapSurfaceFormat [{ format := 44, colorSpace := 0 }] =
        ([{ format := 44, colorSpace := 0 }] : List SurfaceFormatKHR).head? :=
  ⟨(chooseSwapSurfaceFormat_spec
      [{ format := 44, colorSpace := 0 }, preferredSurfaceFormat]).1 (by decide),
   (chooseSwapSurfaceFormat_spec [{ format := 44, colorSpace := 0 }]).2 (by decide)⟩

/-! ## Claim C8: swapchain image count -/

/-- Claim C8: the chosen image count is the reported minimum plus one,
clamped down to the reported maximum when that maximum is non-zero and
left unclamped when the maximum is zero; in particular min=2, max=0
yields 3 and min=2, max=2 yields 2. -/
theorem createSwapChainImageCount_spec :
    ∀ capabilities : SurfaceCapabilitiesKHR,
      (capabilities.minImageCount + 1 < 2 ^ 32 →
        (capabilities.maxImageCount = 0 →
          createSwapChainImageCount capabilities = capabilities.minImageCount + 1)
        ∧ (capabilities.maxImageCount ≠ 0 →
          createSwapChainImageCount capabilities =
            min (capabilities.minImageCount + 1) capabilities.maxImageCount))
      ∧ (∀ currentExtent minExtent maxExtent : Extent2D,
          createSwapChainImageCount
              ⟨2, 0, currentExtent, minExtent, maxExtent⟩ = 3
          ∧ createSwapChainImageCount
              ⟨2, 2, currentExtent, minExtent, maxExtent⟩ = 2) := by
  intro capabilities
  have e : createSwapChainImageCount capabilities =
      if capabilities.maxImageCount ≠ 0 then
        if (capabilities.minImageCount + 1) % 2 ^ 32 > capabilities.maxImageCount
        then capabilities.maxImageCount
        else (capabilities.minImageCount + 1) % 2 ^ 32
      else (capabilities.minImageCount + 1) % 2 ^ 32 := rfl
  constructor
  · intro hlt
    rw [e, Nat.mod_eq_of_lt hlt]
    constructor
    · intro h0
      rw [if_neg (fun hc => hc h0)]
    · intro hne
      rw [if_pos hne]
      split_ifs with h
      · rw [min_eq_right (Nat.le_of_lt h)]
      · rw [min_eq_left (Nat.le_of_not_lt h)]
  · intro currentExtent minExtent maxExtent
    exact ⟨rfl, rfl⟩

/-- Claim C8, witness: applied to the sentinel report (min=2, max=0) the
count is 3, and to the defined report (min=2, max=2) it is 2. -/
theorem createSwapChainImageCount_spec_witness :
    (sentinelCapabilities.minImageCount + 1 < 2 ^ 32
      ∧ createSwapChainImageCount sentinelCapabilities =
          sentinelCapabilities.minImageCount + 1)
    ∧ (definedCapabilities.minImageCount + 1 < 2 ^ 32
      ∧ createSwapChainImageCount definedCapabilities =
          min (definedCapabilities.minImageCount + 1)
            definedCapabilities.maxImageCount) :=
  ⟨⟨by decide,
    ((createSwapChainImageCount_spec sentinelCapabilities).1 (by decide)).1 (by decide)⟩,
   ⟨by decide,
    ((createSwapChainImageCount_spec definedCapabilities).1 (by decide)).2 (by decide)⟩⟩

/-! ## Claims C4 and C10: queue-family lookup -/

/-- Once the accumulator holds an index, the queue-family loop can no
longer return none. -/
theorem findQueueFamilyLoop_isSome (capability : Nat) :
    ∀ (l : List Nat) (i j : Nat),
      ∃ k, findQueueFamilyLoop capability l i (some j) = some k := by
  intro l
  induction l with
  | nil => intro i j; exact ⟨j, rfl⟩
  | cons f rest ih =>
    intro i j
    by_cases hf : f &&& capability = 0
    · obtain ⟨k, hk⟩ := ih (i + 1) j
      exact ⟨k, by simp [findQueueFamilyLoop, hf, hk]⟩
    · by_cases hx : f ^^^ capability = 0
      · exact ⟨i, by simp [findQueueFamilyLoop, hf, hx]⟩
      · obtain ⟨k, hk⟩ := ih (i + 1) i
        exact ⟨k, by simp [findQueueFamilyLoop, hf, hx, hk]⟩

/-- Starting from an empty accumulator the loop returns none exactly when
no family contains the capability bit. -/
theorem findQueueFamilyLoop_none_iff (capability : Nat) :
    ∀ (l : List Nat) (i : Nat),
      (findQueueFamilyLoop capability l i none = none ↔
        ∀ f ∈ l, f &&& capability = 0) := by
  intro l
  induction l with
  | nil => intro i; simp [findQueueFamilyLoop]
  | cons f rest ih =>
    intro i
    by_cases hf : f &&& capability = 0
    · simp [findQueueFamilyLoop, hf, ih (i + 1)]
    · by_cases hx : f ^^^ capability = 0
      · simp [findQueueFamilyLoop, hf, hx]
      · obtain ⟨k, hk⟩ := findQueueFamilyLoop_isSome capability rest (i + 1) i
        simp [findQueueFamilyLoop, hf, hx, hk]

/-- When a family equals the non-zero capability exactly, the loop returns
an index (offset by the starting index) pointing at such a family,
regardless of the accumulator. -/
theorem findQueueFamilyLoop_exact (capability : Nat) (hc : capability ≠ 0) :
    ∀ (l : List Nat) (i : Nat) (idx : Option Nat), capability ∈ l →
      ∃ j, findQueueFamilyLoop capability l i idx = some (i + j)
        ∧ l[j]? = some capability := by
  intro l
  induction l with
  | nil => intro i idx h; cases h
  | cons f rest ih =>
    intro i idx h
    by_cases hx : f ^^^ capability = 0
    · have hfc : f = capability := Nat.xor_eq_zero.mp hx
      have hf : f &&& capability ≠ 0 := by
        rw [hfc]
        simpa using hc
      refine ⟨0, ?_, ?_⟩
      · simp [findQueueFamilyLoop, hf, hx]
      · simp [hfc]
    · have hfc : f ≠ capability := fun he => hx (by rw [he, Nat.xor_self])
      have hmem : capability ∈ rest := by
        rcases List.mem_cons.mp h with he | hm
        · exact absurd he.symm hfc
        · exact hm
      by_cases hf : f &&& capability = 0
      · obtain ⟨j, hj, hg⟩ := ih (i + 1) idx hmem
        refine ⟨j + 1, ?_, by simpa using hg⟩
        have hred : findQueueFamilyLoop capability (f :: rest) i idx =
            findQueueFamilyLoop capability rest (i + 1) idx := by
          simp [findQueueFamilyLoop, hf]
        rw [hred, hj]
        exact congrArg some (by omega)
      · obtain ⟨j, hj, hg⟩ := ih (i + 1) (some i) hmem
        refine ⟨j + 1, ?_, by simpa using hg⟩
        have hred : findQueueFamilyLoop capability (f :: rest) i idx =
            findQueueFamilyLoop capability rest (i + 1) (some i) := by
          simp [findQueueFamilyLoop, hf, hx]
        rw [hred, hj]
        exact congrArg some (by omega)

/-- When no family contains the capability bit the loop returns its
accumulator unchanged. -/
theorem findQueueFamilyLoop_const (capability : Nat) :
    ∀ (l : List Nat) (i : Nat) (idx : Option Nat),
      (∀ f ∈ l, f &&& capability = 0) →
      findQueueFamilyLoop capability l i idx = idx := by
  intro l
  induction l with
  | nil => intro i idx _; rfl
  | cons f rest ih =>
    intro i idx h
    have hf : f &&& capability = 0 := h f (List.mem_cons_self f rest)
    have hr := ih (i + 1) idx (fun g hg => h g (List.mem_cons_of_mem f hg))
    simp [findQueueFamilyLoop, hf, hr]

/-- With no exact match present but at least one family containing the
bit, the loop returns the highest such index (offset by the starting
index). -/
theorem findQueueFamilyLoop_last (capability : Nat) :
    ∀ (l : List Nat) (i : Nat) (idx : Option Nat),
      (∀ f ∈ l, f ^^^ capability ≠ 0) →
      (∃ f ∈ l, f &&& capability ≠ 0) →
      ∃ j f, findQueueFamilyLoop capability l i idx = some (i + j)
        ∧ l[j]? = some f ∧ f &&& capability ≠ 0
        ∧ ∀ k g, l[k]? = some g → g &&& capability ≠ 0 → k ≤ j := by
  intro l
  induction l with
  | nil =>
    intro i idx _ hex
    exact absurd hex (by simp)
  | cons f rest ih =>
    intro i idx hnx hex
    have hxf : f ^^^ capability ≠ 0 := hnx f (List.mem_cons_self f rest)
    have hnx' : ∀ g ∈ rest, g ^^^ capability ≠ 0 := fun g hg =>
      hnx g (List.mem_cons_of_mem f hg)
    by_cases hf : f &&& capability = 0
    · have hex' : ∃ g ∈ rest, g &&& capability ≠ 0 := by
        rcases hex with ⟨g, hg, hgc⟩
        rcases List.mem_cons.mp hg with he | hm
        · exact absurd (he ▸ hgc) (by simp [hf])
        · exact ⟨g, hm, hgc⟩
      obtain ⟨j, g, hj, hget, hgc, hmax⟩ := ih (i + 1) idx hnx' hex'
      refine ⟨j + 1, g, ?_, by simpa using hget, hgc, ?_⟩
      · have hred : findQueueFamilyLoop capability (f :: rest) i idx =
            findQueueFamilyLoop capability rest (i + 1) idx := by
          simp [findQueueFamilyLoop, hf]
        rw [hred, hj]
        exact congrArg some (by omega)
      · intro k g' hk hgc'
        cases k with
        | zero => exact Nat.zero_le _
        | succ k' =>
          have := hmax k' g' (by simpa using hk) hgc'
          omega
    · by_cases hrest : ∃ g ∈ rest, g &&& capability ≠ 0
      · obtain ⟨j, g, hj, hget, hgc, hmax⟩ := ih (i + 1) (some i) hnx' hrest
        refine ⟨j + 1, g, ?_, by simpa using hget, hgc, ?_⟩
        · have hred : findQueueFamilyLoop capability (f :: rest) i idx =
              findQueueFamilyLoop capability rest (i + 1) (some i) := by
            simp [findQueueFamilyLoop, hf, hxf]
          rw [hred, hj]
          exact congrArg some (by omega)
        · intro k g' hk hgc'
          cases k with
          | zero => exact Nat.zero_le _
          | succ k' =>
            have := hmax k' g' (by simpa using hk) hgc'
            omega
      · push_neg at hrest
        have hconst := findQueueFamilyLoop_const capability rest (i + 1) (some i)
          (fun g hg => by simpa using hrest g hg)
        refine ⟨0, f, ?_, by simp, hf, ?_⟩
        · have hred : findQueueFamilyLoop capability (f :: rest) i idx =
              findQueueFamilyLoop capability rest (i + 1) (some i) := by
            simp [findQueueFamilyLoop, hf, hxf]
          rw [hred, hconst]
          exact congrArg some (by omega)
        · intro k g' hk hgc'
          cases k with
          | zero => exact Nat.le_refl 0
          | succ k' =>
            have hmem : g' ∈ rest := List.getElem?_mem (by simpa using hk)
            exact absurd hgc' (by simpa using hrest g' hmem)

/-- Claim C4: for a non-zero capability bit, whenever some family's flag
set exactly equals the capability the function returns an index whose
family is that exact match (so an exact match is preferred over any
strict superset), and it returns none exactly when no family contains the
capability bit. -/
theorem findQueueFamilyWithCapability_spec :
    ∀ (queueFamilies : List Nat) (capability : Nat),
      (capability ≠ 0 → capability ∈ queueFamilies →
        ∃ i, findQueueFamilyWithCapability queueFamilies capability = some i
          ∧ queueFamilies[i]? = some capability)
      ∧ (findQueueFamilyWithCapability queueFamilies capability = none ↔
          ∀ f ∈ queueFamilies, f &&& capability = 0) := by
  intro queueFamilies capability
  constructor
  · intro hc hmem
    obtain ⟨j, hj, hget⟩ :=
      findQueueFamilyLoop_exact capability hc queueFamilies 0 none hmem
    exact ⟨j, by simpa [findQueueFamilyWithCapability] using hj, hget⟩
  · simpa [findQueueFamilyWithCapability] using
      findQueueFamilyLoop_none_iff capability queueFamilies 0

/-- Claim C4, witness: with families [7, 1] and the graphics bit 1, the
exact match at index 1 is returned in preference to the superset at index
0, and on a family list without the bit the result is none. -/
theorem findQueueFamilyWithCapability_spec_witness :
    ((1 : Nat) ≠ 0 ∧ (1 : Nat) ∈ [7, 1]
      ∧ ∃ i, findQueueFamilyWithCapability [7, 1] 1 = some i
          ∧ [7, 1][i]? = some 1)
    ∧ (findQueueFamilyWithCapability [4] 1 = none ↔
        ∀ f ∈ [4], f &&& 1 = 0) :=
  ⟨⟨by decide, by decide,
    (findQueueFamilyWithCapability_spec [7, 1] 1).1 (by decide) (by decide)⟩,
   (findQueueFamilyWithCapability_spec [4] 1).2⟩

/-- Claim C10: when at least one family contains the capability bit but
none equals it exactly, the function returns the highest-index family
containing the bit. -/
theorem findQueueFamilyWithCapability_last_match :
    ∀ (queueFamilies : List Nat) (capability : Nat),
      (∀ f ∈ queueFamilies, f ≠ capability) →
      (∃ f ∈ queueFamilies, f &&& capability ≠ 0) →
      ∃ i f, findQueueFamilyWithCapability queueFamilies capability = some i
        ∧ queueFamilies[i]? = some f ∧ f &&& capability ≠ 0
        ∧ ∀ k g, queueFamilies[k]? = some g → g &&& capability ≠ 0 → k ≤ i := by
  intro queueFamilies capability hne hex
  have hnx : ∀ f ∈ queueFamilies, f ^^^ capability ≠ 0 := fun f hf hx =>
    hne f hf (Nat.xor_eq_zero.mp hx)
  obtain ⟨j, f, hj, hget, hfc, hmax⟩ :=
    findQueueFamilyLoop_last capability queueFamilies 0 none hnx hex
  exact ⟨j, f, by simpa [findQueueFamilyWithCapability] using hj, hget, hfc, hmax⟩

/-- Claim C10, witness: with families [3, 7] (both contain bit 1, neither
equals it) the returned index is the last one containing the bit. -/
theorem findQueueFamilyWithCapability_last_match_witness :
    ∃ i f, findQueueFamilyWithCapability [3, 7] 1 = some i
      ∧ [3, 7][i]? = some f ∧ f &&& 1 ≠ 0
      ∧ ∀ k g, ([3, 7] : List Nat)[k]? = some g → g &&& 1 ≠ 0 → k ≤ i :=
  findQueueFamilyWithCapability_last_match [3, 7] 1 (by decide) (by decide)

/-! ## Claim C3: highest-score device selection -/

/-- The running maximum of the scoring loop never decreases below its
initial value. -/
theorem le_pickLoop_fst (score : PhysicalDevice → Int) :
    ∀ (l : List PhysicalDevice) (i : Nat) (hs : Int) (bi : Nat),
      hs ≤ (pickLoop score l i hs bi).1 := by
  intro l
  induction l with
  | nil => intro i hs bi; exact le_refl hs
  | cons dev rest ih =>
    intro i hs bi
    by_cases h : score dev > hs
    · have hred : pickLoop score (dev :: rest) i hs bi =
          pickLoop score rest (i + 1) (score dev) i := by
        simp [pickLoop, h]
      rw [hred]
      exact le_trans (le_of_lt h) (ih (i + 1) (score dev) i)
    · have hred : pickLoop score (dev :: rest) i hs bi =
          pickLoop score rest (i + 1) hs bi := by
        simp [pickLoop, h]
      rw [hred]
      exact ih (i + 1) hs bi

/-- Every processed candidate's score is bounded by the loop's final
running maximum. -/
theorem mem_le_pickLoop_fst (score : PhysicalDevice → Int) :
    ∀ (l : List PhysicalDevice) (i : Nat) (hs : Int) (bi : Nat) (d : PhysicalDevice),
      d ∈ l → score d ≤ (pickLoop score l i hs bi).1 := by
  intro l
  induction l with
  | nil => intro i hs bi d hd; cases hd
  | cons dev rest ih =>
    intro i hs bi d hd
    by_cases h : score dev > hs
    · have hred : pickLoop score (dev :: rest) i hs bi =
          pickLoop score rest (i + 1) (score dev) i := by
        simp [pickLoop, h]
      rw [hred]
      rcases List.mem_cons.mp hd with he | hm
      · rw [he]
        exact le_pickLoop_fst score rest (i + 1) (score dev) i
      · exact ih (i + 1) (score dev) i d hm
    · have hred : pickLoop score (dev :: rest) i hs bi =
          pickLoop score rest (i + 1) hs bi := by
        simp [pickLoop, h]
      rw [hred]
      rcases List.mem_cons.mp hd with he | hm
      · rw [he]
        exact le_trans (not_lt.mp h) (le_pickLoop_fst score rest (i + 1) hs bi)
      · exact ih (i + 1) hs bi d hm

/-- When no candidate beats the running maximum the loop leaves both
accumulators unchanged. -/
theorem pickLoop_const (score : PhysicalDevice → Int) :
    ∀ (l : List PhysicalDevice) (i : Nat) (hs : Int) (bi : Nat),
      (∀ d ∈ l, score d ≤ hs) → pickLoop score l i hs bi = (hs, bi) := by
  intro l
  induction l with
  | nil => intro i hs bi _; rfl
  | cons dev rest ih =>
    intro i hs bi h
    have hno : ¬ score dev > hs := not_lt.mpr (h dev (List.mem_cons_self dev rest))
    have hred : pickLoop score (dev :: rest) i hs bi =
        pickLoop score rest (i + 1) hs bi := by
      simp [pickLoop, hno]
    rw [hred]
    exact ih (i + 1) hs bi fun d hd => h d (List.mem_cons_of_mem dev hd)

/-- When some candidate strictly beats the initial running maximum, the
loop's final best index (offset by the starting index) points at the
first candidate that attains the final maximum, and every earlier
candidate scores strictly below it. -/
theorem pickLoop_char (score : PhysicalDevice → Int) :
    ∀ (l : List PhysicalDevice) (i : Nat) (hs : Int) (bi : Nat),
      hs < (pickLoop score l i hs bi).1 →
      ∃ j c, l[j]? = some c
        ∧ (pickLoop score l i hs bi).2 = i + j
        ∧ score c = (pickLoop score l i hs bi).1
        ∧ ∀ k d, k < j → l[k]? = some d →
            score d < (pickLoop score l i hs bi).1 := by
  intro l
  induction l with
  | nil => intro i hs bi h; exact absurd h (lt_irrefl hs)
  | cons dev rest ih =>
    intro i hs bi h
    by_cases hd : score dev > hs
    · have hred : pickLoop score (dev :: rest) i hs bi =
          pickLoop score rest (i + 1) (score dev) i := by
        simp [pickLoop, hd]
      rw [hred] at h ⊢
      by_cases h2 : score dev < (pickLoop score rest (i + 1) (score dev) i).1
      · obtain ⟨j, c, hget, hsnd, hsc, hlt⟩ := ih (i + 1) (score dev) i h2
        refine ⟨j + 1, c, by simpa using hget, by rw [hsnd]; omega, hsc, ?_⟩
        intro k d hk hkget
        cases k with
        | zero =>
          have hdd : dev = d := by simpa using hkget
          rw [← hdd]
          exact h2
        | succ k' =>
          exact hlt k' d (by omega) (by simpa using hkget)
      · have hle : (pickLoop score rest (i + 1) (score dev) i).1 ≤ score dev :=
          not_lt.mp h2
        have hge := le_pickLoop_fst score rest (i + 1) (score dev) i
        have hall : ∀ d ∈ rest, score d ≤ score dev := fun d hd' =>
          le_trans (mem_le_pickLoop_fst score rest (i + 1) (score dev) i d hd') hle
        have hconst := pickLoop_const score rest (i + 1) (score dev) i hall
        rw [hconst]
        refine ⟨0, dev, by simp, by simp, rfl, ?_⟩
        intro k d hk _
        exact absurd hk (Nat.not_lt_zero k)
    · have hred : pickLoop score (dev :: rest) i hs bi =
          pickLoop score rest (i + 1) hs bi := by
        simp [pickLoop, hd]
      rw [hred] at h ⊢
      obtain ⟨j, c, hget, hsnd, hsc, hlt⟩ := ih (i + 1) hs bi h
      refine ⟨j + 1, c, by simpa using hget, by rw [hsnd]; omega, hsc, ?_⟩
      intro k d hk hkget
      cases k with
      | zero =>
        have hdd : dev = d := by simpa using hkget
        rw [← hdd]
        exact lt_of_le_of_lt (not_lt.mp hd) h
      | succ k' =>
        exact hlt k' d (by omega) (by simpa using hkget)

/-- Claim C3: whenever at least one candidate scores above 0, the
selection returns the first candidate attaining the strictly highest
score, whose score is positive; a candidate whose computed score is 0 is
never returned; when every candidate scores 0 the selection fails with
"no suitable gpu found"; and an empty enumeration fails with the distinct
error "failed to find gpu supporting vulkan". -/
theorem pickPhysicalDeviceWithHighestScore_spec :
    ∀ physicalDevices : List PhysicalDevice,
      ((∃ d ∈ physicalDevices, 0 < calculatePhysicalDeviceScore d) →
        ∃ j c, physicalDevices[j]? = some c
          ∧ pickPhysicalDeviceWithHighestScore physicalDevices = Except.ok c
          ∧ 0 < calculatePhysicalDeviceScore c
          ∧ (∀ d ∈ physicalDevices,
              calculatePhysicalDeviceScore d ≤ calculatePhysicalDeviceScore c)
          ∧ ∀ (k : Nat) (d : PhysicalDevice), k < j → physicalDevices[k]? = some d →
              calculatePhysicalDeviceScore d < calculatePhysicalDeviceScore c)
      ∧ (∀ c, pickPhysicalDeviceWithHighestScore physicalDevices = Except.ok c →
          calculatePhysicalDeviceScore c ≠ 0)
      ∧ ((∀ d ∈ physicalDevices, calculatePhysicalDeviceScore d = 0) →
          pickPhysicalDeviceWithHighestScore physicalDevices =
            Except.error "no suitable gpu found")
      ∧ findPhysicalDevices [] = Except.error "failed to find gpu supporting vulkan"
      ∧ ("no suitable gpu found" : String) ≠ "failed to find gpu supporting vulkan" := by
  intro devices
  refine ⟨?_, ?_, ?_, by rfl, by decide⟩
  · rintro ⟨d, hdmem, hdpos⟩
    have hle := mem_le_pickLoop_fst calculatePhysicalDeviceScore devices 0 0 0 d hdmem
    have hpos : 0 < (pickLoop calculatePhysicalDeviceScore devices 0 0 0).1 :=
      lt_of_lt_of_le hdpos hle
    obtain ⟨j, c, hget, hsnd, hsc, hlt⟩ :=
      pickLoop_char calculatePhysicalDeviceScore devices 0 0 0 hpos
    have h2 : (pickLoop calculatePhysicalDeviceScore devices 0 0 0).2 = j := by
      rw [hsnd]
      omega
    refine ⟨j, c, hget, ?_, ?_, ?_, ?_⟩
    · show (if (pickLoop calculatePhysicalDeviceScore devices 0 0 0).1 = 0 then
            (Except.error "no suitable gpu found" : Except String PhysicalDevice)
          else
            match devices[(pickLoop calculatePhysicalDeviceScore devices 0 0 0).2]? with
            | some dev => Except.ok dev
            | none => Except.error "index out of range") = Except.ok c
      rw [if_neg (ne_of_gt hpos), h2, hget]
    · rw [hsc]
      exact hpos
    · intro d' hd'
      rw [hsc]
      exact mem_le_pickLoop_fst calculatePhysicalDeviceScore devices 0 0 0 d' hd'
    · intro k d' hk hkget
      rw [hsc]
      exact hlt k d' hk hkget
  · intro c hok
    by_cases hz : (pickLoop calculatePhysicalDeviceScore devices 0 0 0).1 = 0
    · have herr : pickPhysicalDeviceWithHighestScore devices =
          Except.error "no suitable gpu found" := by
        show (if (pickLoop calculatePhysicalDeviceScore devices 0 0 0).1 = 0 then
              (Except.error "no suitable gpu found" : Except String PhysicalDevice)
            else
              match devices[(pickLoop calculatePhysicalDeviceScore devices 0 0 0).2]? with
              | some dev => Except.ok dev
              | none => Except.error "index out of range") =
            Except.error "no suitable gpu found"
        rw [if_pos hz]
      rw [herr] at hok
      simp at hok
    · have hge := le_pickLoop_fst calculatePhysicalDeviceScore devices 0 0 0
      have hpos : 0 < (pickLoop calculatePhysicalDeviceScore devices 0 0 0).1 :=
        lt_of_le_of_ne hge (Ne.symm hz)
      obtain ⟨j, c0, hget, hsnd, hsc, hlt⟩ :=
        pickLoop_char calculatePhysicalDeviceScore devices 0 0 0 hpos
      have h2 : (pickLoop calculatePhysicalDeviceScore devices 0 0 0).2 = j := by
        rw [hsnd]
        omega
      have hco : pickPhysicalDeviceWithHighestScore devices = Except.ok c0 := by
        show (if (pickLoop calculatePhysicalDeviceScore devices 0 0 0).1 = 0 then
              (Except.error "no suitable gpu found" : Except String PhysicalDevice)
            else
              match devices[(pickLoop calculatePhysicalDeviceScore devices 0 0 0).2]? with
              | some dev => Except.ok dev
              | none => Except.error "index out of range") = Except.ok c0
        rw [if_neg (ne_of_gt hpos), h2, hget]
      rw [hco] at hok
      have hcc : c0 = c := by simpa using hok
      rw [← hcc, hsc]
      exact hz
  · intro hall
    have hconst := pickLoop_const calculatePhysicalDeviceScore devices 0 0 0
      (fun d hd => le_of_eq (hall d hd))
    show (if (pickLoop calculatePhysicalDeviceScore devices 0 0 0).1 = 0 then
          (Except.error "no suitable gpu found" : Except String PhysicalDevice)
        else
          match devices[(pickLoop calculatePhysicalDeviceScore devices 0 0 0).2]? with
          | some dev => Except.ok dev
          | none => Except.error "index out of range") =
        Except.error "no suitable gpu found"
    rw [hconst, if_pos rfl]

/-- Claim C3, witness: with one suitable integrated and one suitable
discrete candidate, the selection returns a positive-score candidate in
the list, dominating all scores. -/
theorem pickPhysicalDeviceWithHighestScore_spec_witness :
    (∃ d ∈ [suitableDevice VK_PHYSICAL_DEVICE_TYPE_INTEGRATED_GPU,
            suitableDevice VK_PHYSICAL_DEVICE_TYPE_DISCRETE_GPU],
        0 < calculatePhysicalDeviceScore d)
    ∧ ∃ j c,
        [suitableDevice VK_PHYSICAL_DEVICE_TYPE_INTEGRATED_GPU,
         suitableDevice VK_PHYSICAL_DEVICE_TYPE_DISCRETE_GPU][j]? = some c
        ∧ pickPhysicalDeviceWithHighestScore
            [suitableDevice VK_PHYSICAL_DEVICE_TYPE_INTEGRATED_GPU,
             suitableDevice VK_PHYSICAL_DEVICE_TYPE_DISCRETE_GPU] = Except.ok c
        ∧ 0 < calculatePhysicalDeviceScore c
        ∧ (∀ d ∈ [suitableDevice VK_PHYSICAL_DEVICE_TYPE_INTEGRATED_GPU,
                  suitableDevice VK_PHYSICAL_DEVICE_TYPE_DISCRETE_GPU],
            calculatePhysicalDeviceScore d ≤ calculatePhysicalDeviceScore c)
        ∧ ∀ (k : Nat) (d : PhysicalDevice), k < j →
            [suitableDevice VK_PHYSICAL_DEVICE_TYPE_INTEGRATED_GPU,
             suitableDevice VK_PHYSICAL_DEVICE_TYPE_DISCRETE_GPU][k]? = some d →
            calculatePhysicalDeviceScore d < calculatePhysicalDeviceScore c :=
  ⟨⟨suitableDevice VK_PHYSICAL_DEVICE_TYPE_DISCRETE_GPU, by decide, by decide⟩,
   (pickPhysicalDeviceWithHighestScore_spec
       [suitableDevice VK_PHYSICAL_DEVICE_TYPE_INTEGRATED_GPU,
        suitableDevice VK_PHYSICAL_DEVICE_TYPE_DISCRETE_GPU]).1
     ⟨suitableDevice VK_PHYSICAL_DEVICE_TYPE_DISCRETE_GPU, by decide, by decide⟩⟩

end VulkanLearning
